import Mathlib

/-!
Verification of the firmware synchronization subsystem of the fwupd-dbus
client library (a Rust library), against its natural-language specification.

The development shallowly embeds the relevant source functions:
  * `src/common.rs`: `checksum_guess_kind`, `find_best_checksum`,
    `validate_checksum`;
  * `src/lib.rs`: the fetch-and-verify pipeline of
    `Client::fetch_firmware_from_release`, and the signal decoding of
    `Client::listen_signals`;
  * `src/remote.rs`: `Remote::update_metadata`, `Remote::update_file`,
    `Remote::fetch`, and `Remote::firmware_uri`.

Machine integers are embedded as `Nat`; byte streams as `List Nat`; fallible
I/O operations are driven by explicit environment records whose fields state,
for each I/O action the code performs, whether it succeeds and with which
data.  The cryptographic hash itself is an abstract parameter
`digest : Algorithm → List Nat → String` of the environments, so theorems
quantify over every possible digest function.
-/

namespace Fwupd

/-- The digest algorithms of the `crypto_hash` crate used by the source
(`crypto_hash::Algorithm`). -/
inductive Algorithm
  | MD5
  | SHA1
  | SHA256
  | SHA512
deriving DecidableEq

/-- Embeds `checksum_guess_kind` (src/common.rs): guesses the digest
algorithm from the length of the checksum text.  Rust's `str::len` is the
byte length, which coincides with `String.length` on the ASCII hex digests
this function is applied to. -/
def checksum_guess_kind (checksum : String) : Algorithm :=
  match checksum.length with
  | 32 => Algorithm.MD5
  | 40 => Algorithm.SHA1
  | 64 => Algorithm.SHA256
  | 128 => Algorithm.SHA512
  | _ => Algorithm.SHA1

/-- The fixed preference order `ALGORITHMS` of src/common.rs. -/
def ALGORITHMS : List Algorithm := [Algorithm.SHA512, Algorithm.SHA256, Algorithm.SHA1]

/-- The inner loop of `find_best_checksum`: the first checksum in the input
whose guessed kind equals `alg`. -/
def findChecksumFor (alg : Algorithm) (checksums : List String) : Option String :=
  checksums.find? (fun checksum => alg = checksum_guess_kind checksum)

/-- Embeds `find_best_checksum` (src/common.rs): iterates the preference
order `ALGORITHMS` and returns the first checksum whose guessed kind matches
the algorithm under consideration. -/
def findBestIn : List Algorithm → List String → Option (String × Algorithm)
  | [], _ => none
  | alg :: rest, checksums =>
    match findChecksumFor alg checksums with
    | some checksum => some (checksum, alg)
    | none => findBestIn rest checksums

/-- `find_best_checksum` proper: the outer loop runs over `ALGORITHMS`. -/
def find_best_checksum (checksums : List String) : Option (String × Algorithm) :=
  findBestIn ALGORITHMS checksums

/-- Rank of an algorithm in the preference order: lower is more preferred;
`MD5` (and only `MD5`) is outside the preference list. -/
def prefRank : Algorithm → Nat
  | Algorithm.SHA512 => 0
  | Algorithm.SHA256 => 1
  | Algorithm.SHA1 => 2
  | Algorithm.MD5 => 3

theorem checksum_guess_kind_eq_MD5 (c : String) :
    checksum_guess_kind c = Algorithm.MD5 ↔ c.length = 32 := by
  unfold checksum_guess_kind
  split <;> simp_all

theorem findChecksumFor_some {alg : Algorithm} {l : List String} {c : String}
    (h : findChecksumFor alg l = some c) :
    c ∈ l ∧ checksum_guess_kind c = alg := by
  have hmem := List.mem_of_find?_eq_some h
  have hp := List.find?_some h
  refine ⟨hmem, ?_⟩
  have := of_decide_eq_true hp
  exact this.symm

theorem findChecksumFor_none {alg : Algorithm} {l : List String}
    (h : findChecksumFor alg l = none) :
    ∀ c ∈ l, checksum_guess_kind c ≠ alg := by
  intro c hc
  have := List.find?_eq_none.mp h c hc
  intro heq
  exact this (by simp [heq])

theorem findChecksumFor_none_of (alg : Algorithm) (l : List String)
    (h : ∀ c ∈ l, checksum_guess_kind c ≠ alg) :
    findChecksumFor alg l = none := by
  apply List.find?_eq_none.mpr
  intro c hc
  simp only [decide_eq_true_eq]
  intro heq
  exact h c hc heq.symm

theorem find_best_unfold (l : List String) :
    find_best_checksum l =
      match findChecksumFor Algorithm.SHA512 l with
      | some c => some (c, Algorithm.SHA512)
      | none =>
        match findChecksumFor Algorithm.SHA256 l with
        | some c => some (c, Algorithm.SHA256)
        | none =>
          match findChecksumFor Algorithm.SHA1 l with
          | some c => some (c, Algorithm.SHA1)
          | none => none := rfl

theorem prefRank_pos_of_ne_sha512 {a : Algorithm} (h : a ≠ Algorithm.SHA512) :
    1 ≤ prefRank a := by
  cases a <;> simp_all [prefRank]

theorem prefRank_ge_two_of {a : Algorithm} (h512 : a ≠ Algorithm.SHA512)
    (h256 : a ≠ Algorithm.SHA256) : 2 ≤ prefRank a := by
  cases a <;> simp_all [prefRank]

/-- The claim of C4 is false on the code: a list containing only entries of
unrecognized length (here length 3, none of 32/40/64/128) does not yield
`none`; `checksum_guess_kind` defaults to `SHA1` for unrecognized lengths,
so such an entry qualifies and is returned. -/
theorem c4_counterexample :
    find_best_checksum ["abc"] = some ("abc", Algorithm.SHA1) ∧
      "abc".length ≠ 32 ∧ "abc".length ≠ 40 ∧
      "abc".length ≠ 64 ∧ "abc".length ≠ 128 := by
  decide

/-- C4 (amended): `find_best_checksum` prefers SHA512 over SHA256 over SHA1
in any input order — any returned entry is a member of the input whose
guessed kind is minimal in the preference rank among all guessed kinds
present — and it returns `none` exactly when every entry has MD5 length
(32 characters); entries of unrecognized length are guessed as SHA1 and
therefore qualify. -/
theorem c4_find_best_checksum_spec (l : List String) :
    (find_best_checksum l = none ↔ ∀ c ∈ l, c.length = 32) ∧
    (∀ c a, find_best_checksum l = some (c, a) →
      c ∈ l ∧ checksum_guess_kind c = a ∧
        ∀ c' ∈ l, prefRank a ≤ prefRank (checksum_guess_kind c')) := by
  constructor
  · constructor
    · intro h c hc
      rw [find_best_unfold] at h
      rcases h512 : findChecksumFor Algorithm.SHA512 l with _ | c512
      · rcases h256 : findChecksumFor Algorithm.SHA256 l with _ | c256
        · rcases h1 : findChecksumFor Algorithm.SHA1 l with _ | c1
          · have n512 := findChecksumFor_none h512 c hc
            have n256 := findChecksumFor_none h256 c hc
            have n1 := findChecksumFor_none h1 c hc
            have : checksum_guess_kind c = Algorithm.MD5 := by
              cases hck : checksum_guess_kind c <;> simp_all
            exact (checksum_guess_kind_eq_MD5 c).mp this
          · simp only [h512, h256, h1] at h
            exact Option.noConfusion h
        · simp only [h512, h256] at h
          exact Option.noConfusion h
      · simp only [h512] at h
        exact Option.noConfusion h
    · intro h
      rw [find_best_unfold]
      have hall : ∀ a, a ≠ Algorithm.MD5 → findChecksumFor a l = none := by
        intro a ha
        apply findChecksumFor_none_of
        intro c hc
        have : checksum_guess_kind c = Algorithm.MD5 :=
          (checksum_guess_kind_eq_MD5 c).mpr (h c hc)
        rw [this]; exact fun hx => ha hx.symm
      rw [hall Algorithm.SHA512 (by simp), hall Algorithm.SHA256 (by simp),
        hall Algorithm.SHA1 (by simp)]
  · intro c a h
    rw [find_best_unfold] at h
    rcases h512 : findChecksumFor Algorithm.SHA512 l with _ | c512
    · rcases h256 : findChecksumFor Algorithm.SHA256 l with _ | c256
      · rcases h1 : findChecksumFor Algorithm.SHA1 l with _ | c1
        · simp only [h512, h256, h1] at h
          exact Option.noConfusion h
        · simp only [h512, h256, h1, Option.some.injEq, Prod.mk.injEq] at h
          obtain ⟨hc, ha⟩ := h
          subst hc; subst ha
          obtain ⟨hmem, hkind⟩ := findChecksumFor_some h1
          refine ⟨hmem, hkind, ?_⟩
          intro c' hc'
          have n512 := findChecksumFor_none h512 c' hc'
          have n256 := findChecksumFor_none h256 c' hc'
          simpa [prefRank] using prefRank_ge_two_of n512 n256
      · simp only [h512, h256, Option.some.injEq, Prod.mk.injEq] at h
        obtain ⟨hc, ha⟩ := h
        subst hc; subst ha
        obtain ⟨hmem, hkind⟩ := findChecksumFor_some h256
        refine ⟨hmem, hkind, ?_⟩
        intro c' hc'
        have n512 := findChecksumFor_none h512 c' hc'
        simpa [prefRank] using prefRank_pos_of_ne_sha512 n512
    · simp only [h512, Option.some.injEq, Prod.mk.injEq] at h
      obtain ⟨hc, ha⟩ := h
      subst hc; subst ha
      obtain ⟨hmem, hkind⟩ := findChecksumFor_some h512
      exact ⟨hmem, hkind, fun c' _ => by simp [prefRank]⟩

set_option maxRecDepth 4000 in
/-- Witness for C4's amended theorem at a concrete input: a list holding a
SHA1-length and a SHA512-length checksum, in that order; the SHA512 entry is
selected and its rank is minimal. -/
theorem c4_witness :
    (String.mk (List.replicate 128 'b') ∈
        [String.mk (List.replicate 40 'a'), String.mk (List.replicate 128 'b')] ∧
      checksum_guess_kind (String.mk (List.replicate 128 'b')) = Algorithm.SHA512 ∧
        ∀ c' ∈ [String.mk (List.replicate 40 'a'), String.mk (List.replicate 128 'b')],
          prefRank Algorithm.SHA512 ≤ prefRank (checksum_guess_kind c')) ∧
    find_best_checksum [] = none := by
  constructor
  · exact (c4_find_best_checksum_spec
      [String.mk (List.replicate 40 'a'), String.mk (List.replicate 128 'b')]).2
      (String.mk (List.replicate 128 'b')) Algorithm.SHA512 (by decide)
  · exact (c4_find_best_checksum_spec []).1.mpr (by simp)

/-! ## The fetch-and-verify pipeline of `Client::fetch_firmware_from_release`

The pipeline (src/lib.rs, lines 233-381) is embedded for download-kind
remotes, from the point where the best checksum is selected.  The
environment `PipelineEnv` fixes the outcome of every I/O action the code
performs, in program order; byte contents are `List Nat`, I/O and HTTP
errors are `Nat` codes carried into the corresponding `Error` variants. -/

/-- I/O error, abstracted to an error code (`std::io::Error`). -/
abbrev IoError := Nat

/-- HTTP-transport error, abstracted to an error code (`ureq::Error`). -/
abbrev UreqError := Nat

/-- The `Error` variants of src/lib.rs that the modelled fragment of
`fetch_firmware_from_release` can produce. -/
inductive FwError
  | FirmwareChecksumMismatch
  | FirmwareCopy (e : IoError)
  | FirmwareCreate (e : IoError)
  | FirmwareGet (e : UreqError)
  | FirmwareOpen (e : IoError)
  | FirmwareSeek (e : IoError)
  | ReleaseWithoutChecksums
deriving DecidableEq

/-- `Result::is_err` on an `Except` value. -/
def isErrE : Except ε α → Bool
  | Except.error _ => true
  | Except.ok _ => false

/-- Embeds `validate_checksum` (src/common.rs): streams the data through the
hasher — which can fail with an I/O error, supplied here as `ioErr` — and
otherwise compares the checksum text with the hex digest of the data,
computed by the abstract `digest` function.  Returns `Ok(bool)`: the boolean
says whether the digest matched, an `Err` is an I/O failure while reading. -/
def validate_checksum (digest : Algorithm → List Nat → String) (ioErr : Option IoError)
    (data : List Nat) (checksum : String) (alg : Algorithm) : Except IoError Bool :=
  match ioErr with
  | some e => Except.error e
  | none => Except.ok (checksum = digest alg data)

/-- Environment fixing the outcome of each I/O action of one
`fetch_firmware_from_release` execution, in program order. -/
structure PipelineEnv where
  /-- The abstract hash: hex digest of a byte stream under an algorithm. -/
  digest : Algorithm → List Nat → String
  /-- Content of the destination cache file before the call
  (`file_path.exists()` is `cache.isSome`). -/
  cache : Option (List Nat)
  /-- Outcome of opening the existing cache file read-only. -/
  openErr : Option IoError
  /-- I/O failure, if any, while hashing the existing cache file. -/
  cacheReadErr : Option IoError
  /-- Outcome of creating/opening the download destination file. -/
  createErr : Option IoError
  /-- Outcome of `request.call()`: the response bytes, or a transport error. -/
  getResp : Except UreqError (List Nat)
  /-- I/O failure, if any, while copying the response into the file. -/
  copyErr : Option IoError
  /-- Outcome of the seek to offset 0 before validating the download. -/
  seekErr1 : Option IoError
  /-- I/O failure, if any, while hashing the downloaded file. -/
  dlReadErr : Option IoError
  /-- Outcome of the final rewind to offset 0 before returning. -/
  seekErr2 : Option IoError

/-- Result of one modelled `fetch_firmware_from_release` execution. -/
structure FetchResult where
  /-- The returned value: content of the returned open file, or the error. -/
  result : Except FwError (List Nat)
  /-- Content of the destination cache path after the call (`none` = the
  path does not exist). -/
  cacheAfter : Option (List Nat)
  /-- Number of HTTP GET calls issued. -/
  downloads : Nat

/-- Embeds the `download_and_verify` closure of
`fetch_firmware_from_release` (src/lib.rs, lines 289-338): issue the GET,
stream the response into the file, rewind, and validate.  The destination
file is opened with create-but-no-truncate semantics, so response bytes
overwrite the old content from offset 0 and any old bytes beyond the
response length survive: the file content becomes
`resp ++ oldContent.drop resp.length`.  Exactly as in the source, the
boolean result of `validate_checksum` is discarded — only its `is_err()`
is consulted, and an `Err` becomes `FirmwareChecksumMismatch`. -/
def download_and_verify (env : PipelineEnv) (oldContent : List Nat)
    (checksum : String) (alg : Algorithm) : Except FwError (List Nat) :=
  match env.getResp with
  | Except.error e => Except.error (FwError.FirmwareGet e)
  | Except.ok resp =>
    match env.copyErr with
    | some e => Except.error (FwError.FirmwareCopy e)
    | none =>
      let content := resp ++ oldContent.drop resp.length
      match env.seekErr1 with
      | some e => Except.error (FwError.FirmwareSeek e)
      | none =>
        match validate_checksum env.digest env.dlReadErr content checksum alg with
        | Except.error _ => Except.error FwError.FirmwareChecksumMismatch
        | Except.ok _matched => Except.ok content

/-- The final rewind (src/lib.rs, lines 376-380): seek the returned file to
offset 0, then return it with the cache path. -/
def finalizeFetch (env : PipelineEnv) (fileContent : List Nat)
    (cacheAfter : Option (List Nat)) (downloads : Nat) : FetchResult :=
  match env.seekErr2 with
  | some e => ⟨Except.error (FwError.FirmwareSeek e), cacheAfter, downloads⟩
  | none => ⟨Except.ok fileContent, cacheAfter, downloads⟩

/-- The download stage (src/lib.rs, lines 356-374): create the destination
file, run `download_and_verify`, and on any error delete the destination
file before propagating; on success the downloaded content is at the cache
path. -/
def fetchStage (env : PipelineEnv) (oldContent : List Nat)
    (checksum : String) (alg : Algorithm) : FetchResult :=
  match env.createErr with
  | some e => ⟨Except.error (FwError.FirmwareCreate e), env.cache, 0⟩
  | none =>
    match download_and_verify env oldContent checksum alg with
    | Except.error why => ⟨Except.error why, none, 1⟩
    | Except.ok content => finalizeFetch env content (some content) 1

/-- Embeds `fetch_firmware_from_release` (src/lib.rs, lines 233-381) for a
download-kind remote, from best-checksum selection onward: pick the best
checksum of the release (`ReleaseWithoutChecksums` if none qualifies);
if the cache file exists, open it (propagating an open failure as
`FirmwareOpen`) and set `firmware_requires_fetching` to
`validate_checksum(...).is_err()` — exactly as in the source, the boolean
match result is discarded; fetch if required; finally rewind and return. -/
def fetch_firmware_from_release (env : PipelineEnv) (checksums : List String) : FetchResult :=
  match find_best_checksum checksums with
  | none => ⟨Except.error FwError.ReleaseWithoutChecksums, env.cache, 0⟩
  | some (checksum, alg) =>
    match env.cache with
    | some content =>
      match env.openErr with
      | some e => ⟨Except.error (FwError.FirmwareOpen e), env.cache, 0⟩
      | none =>
        let validated := validate_checksum env.digest env.cacheReadErr content checksum alg
        if isErrE validated then fetchStage env content checksum alg
        else finalizeFetch env content (some content) 0
    | none => fetchStage env [] checksum alg

/-- A  well-formed SHA512-length checksum text: 128 characters. -/
def sha512Checksum : String := String.mk (List.replicate 128 'a')

/-- Environment of a run where the cache file is absent, every I/O action
succeeds, the download returns the bytes `[1, 2, 3]`, and the digest of
every stream is the string `"d"` — which differs from `sha512Checksum`. -/
def mismatchDownloadEnv : PipelineEnv :=
  ⟨fun _ _ => "d", none, none, none, none, Except.ok [1, 2, 3], none, none, none, none⟩

/-- Environment of a run where the cache file holds `[9]`, every I/O action
succeeds, and the digest of every stream is `"d"` ≠ `sha512Checksum`, so the
cached bytes do not match the best checksum. -/
def staleCacheEnv : PipelineEnv :=
  ⟨fun _ _ => "d", some [9], none, none, none, Except.ok [1, 2, 3], none, none, none, none⟩

/-- Environment of a run where the cache file is absent and the HTTP GET
fails with transport error code `7`. -/
def failedGetEnv : PipelineEnv :=
  ⟨fun _ _ => "d", none, none, none, none, Except.error 7, none, none, none, none⟩

set_option maxRecDepth 4000 in
/-- C1 fails on the code: in `fetch_firmware_from_release` the result of
`validate_checksum` is consulted only through `is_err()`, so a digest
mismatch (`Ok(false)`) is accepted.  At this input the downloaded bytes
`[1,2,3]` hash to `"d"`, which differs from the selected best checksum, yet
the pipeline succeeds and returns the mismatched file instead of
`FirmwareChecksumMismatch`. -/
theorem c1_mismatch_accepted :
    fetch_firmware_from_release mismatchDownloadEnv [sha512Checksum] =
      ⟨Except.ok [1, 2, 3], some [1, 2, 3], 1⟩ ∧
      mismatchDownloadEnv.digest Algorithm.SHA512 [1, 2, 3] ≠ sha512Checksum := by
  exact ⟨rfl, by decide⟩

set_option maxRecDepth 4000 in
/-- C2 fails on the code: `firmware_requires_fetching` is
`validate_checksum(...).is_err()`, so a cache file that exists, reads
fine and does **not** match the best checksum still counts as valid.  At
this input the cached bytes `[9]` hash to `"d"` ≠ the best checksum, yet no
download occurs (zero GET calls) and the stale cached file is returned. -/
theorem c2_stale_cache_no_download :
    fetch_firmware_from_release staleCacheEnv [sha512Checksum] =
      ⟨Except.ok [9], some [9], 0⟩ ∧
      staleCacheEnv.digest Algorithm.SHA512 [9] ≠ sha512Checksum := by
  exact ⟨rfl, by decide⟩

/-- C3: whenever the download stage runs (cache absent, or cache present,
readable and judged invalid) and `download_and_verify` returns an error —
transport, copy, seek or checksum-validation failure — the destination file
is deleted before the error is propagated, so the cache path does not exist
afterward; when `download_and_verify` succeeds and the final rewind
succeeds, the downloaded content is returned and sits at the cache path. -/
theorem c3_fetch_rollback (env : PipelineEnv) (checksums : List String)
    (ch : String) (alg : Algorithm) (old : List Nat)
    (hbest : find_best_checksum checksums = some (ch, alg))
    (hpath : (env.cache = none ∧ old = []) ∨
      (env.cache = some old ∧ env.openErr = none ∧
        isErrE (validate_checksum env.digest env.cacheReadErr old ch alg) = true))
    (hcreate : env.createErr = none) :
    (∀ e, download_and_verify env old ch alg = Except.error e →
      fetch_firmware_from_release env checksums = ⟨Except.error e, none, 1⟩) ∧
    (∀ content, download_and_verify env old ch alg = Except.ok content →
      env.seekErr2 = none →
      fetch_firmware_from_release env checksums = ⟨Except.ok content, some content, 1⟩) := by
  have hstage : fetch_firmware_from_release env checksums = fetchStage env old ch alg := by
    unfold fetch_firmware_from_release
    rw [hbest]
    rcases hpath with ⟨hc, hold⟩ | ⟨hc, hopen, hval⟩
    · rw [hc, hold]
    · rw [hc, hopen]
      simp only [hval, if_true]
  constructor
  · intro e hdv
    rw [hstage]
    unfold fetchStage
    rw [hcreate, hdv]
  · intro content hdv hseek
    rw [hstage]
    unfold fetchStage
    rw [hcreate, hdv]
    unfold finalizeFetch
    rw [hseek]

set_option maxRecDepth 4000 in
/-- Witness for C3 at a concrete input: the cache is absent and the GET
fails with code `7`; the rollback theorem applies and the cache path does
not exist afterward. -/
theorem c3_witness :
    fetch_firmware_from_release failedGetEnv [sha512Checksum] =
      ⟨Except.error (FwError.FirmwareGet 7), none, 1⟩ :=
  (c3_fetch_rollback failedGetEnv [sha512Checksum] sha512Checksum Algorithm.SHA512 []
    (by decide) (Or.inl ⟨rfl, rfl⟩) rfl).1 (FwError.FirmwareGet 7) rfl

/-! ## The signal listener of `Client::listen_signals`

`listen_signals` (src/lib.rs, lines 479-549) subscribes to all signals of
the daemon and produces a lazy iterator
`receive_all_signals().take_while(|_| cancellable.load(..)).filter_map(decode)`.
The embedding models one consumption of the iterator as a function of a
trace: the list of raw events received, each paired with the value of the
shared cancellation flag observed by the `take_while` check at that
event. -/

/-- Describes the state of the last update on a device (src/device.rs). -/
inductive UpdateState
  | Unknown
  | Pending
  | Success
  | Failed
  | NeedsReboot
  | FailedTransient
deriving DecidableEq

/-- The version format of a device (src/device.rs). -/
inductive VersionFormat
  | Unknown
  | Plain
  | Number
  | Pair
  | Triplet
  | Quad
  | Bcd
  | IntelMe
  | IntelMe2
deriving DecidableEq

/-- A device that is potentially-supported by fwupd (src/device.rs);
`DeviceFlags` is a `u64` bitmask, embedded as `Nat`. -/
structure Device where
  checksum : Option String
  created : Nat
  description : Option String
  device_id : String
  flags : Nat
  flashes_left : Option Nat
  guid : List String
  icon : List String
  install_duration : Option Nat
  instance_ids : List String
  modified : Option Nat
  name : String
  parent_device_id : Option String
  plugin : String
  serial : Option String
  summary : Option String
  update_error : Option String
  update_message : Option String
  update_state : Option UpdateState
  vendor_id : String
  vendor : String
  version_bootloader : Option String
  version_format : Option VersionFormat
  version_lowest : Option String
  version : String
deriving DecidableEq

/-- A user-interaction request (src/request.rs). -/
structure Request where
  appstream_id : String
  created : Nat
  plugin : String
  request_kind : Nat
  update_message : String
deriving DecidableEq

/-- `Request::default()`: every field empty or zero. -/
def Request.default : Request := ⟨"", 0, "", 0, ""⟩

/-- The zbus `Value` variants the `DeviceRequest` decoder inspects. -/
inductive ZValue
  | str (s : String)
  | u64 (n : Nat)
  | u32 (n : Nat)
  | other
deriving DecidableEq

/-- The `Signal` enum (src/lib.rs, lines 728-746). -/
inductive Signal
  | Changed
  | DeviceAdded (device : Device)
  | DeviceChanged (device : Device)
  | DeviceRemoved (device : Device)
  | DeviceRequest (request : Request)
  | PropertiesChanged (iface : String) (changed : List (String × ZValue))
      (invalidated : List String)
deriving DecidableEq

/-- A raw bus event: its member name, and the outcome of decoding its body
as a key/value map (`signal.body()` returns a `zbus::Result`, whose error is
abstracted to a code). -/
structure RawEvent where
  member : String
  body : Except Nat (List (String × ZValue))

/-- One step of the `for (key, value) in array` loop of the `DeviceRequest`
decoder in `listen_signals`: updates the request field selected by the key
when the value has the expected shape, and leaves the request unchanged
otherwise (unknown fields are logged and skipped). -/
def applyRequestField (request : Request) : String × ZValue → Request
  | (key, value) =>
    match key with
    | "AppstreamId" =>
      match value with
      | ZValue.str s =>
        ⟨s, request.created, request.plugin, request.request_kind, request.update_message⟩
      | _ => request
    | "Created" =>
      match value with
      | ZValue.u64 n =>
        ⟨request.appstream_id, n, request.plugin, request.request_kind, request.update_message⟩
      | _ => request
    | "Plugin" =>
      match value with
      | ZValue.str s =>
        ⟨request.appstream_id, request.created, s, request.request_kind, request.update_message⟩
      | _ => request
    | "RequestKind" =>
      match value with
      | ZValue.u32 n =>
        ⟨request.appstream_id, request.created, request.plugin, n, request.update_message⟩
      | _ => request
    | "UpdateMessage" =>
      match value with
      | ZValue.str s =>
        ⟨request.appstream_id, request.created, request.plugin, request.request_kind, s⟩
      | _ => request
    | _ => request

/-- Embeds the `filter_map` closure of `listen_signals` (src/lib.rs, lines
495-548): only the member name `"DeviceRequest"` selects a decoder — every
other member falls to the `_ => return None` arm and is skipped.  A body
decode failure is logged and dropped (`None`).  On success the loop builds
`request` from the body map, but the source then returns
`Signal::DeviceRequest(request::Request::default())`, discarding the built
value — the embedding reproduces that discard faithfully. -/
def decodeSignal (ev : RawEvent) : Option Signal :=
  match ev.member with
  | "DeviceRequest" =>
    match ev.body with
    | Except.error _ => none
    | Except.ok array =>
      let _request := array.foldl applyRequestField Request.default
      some (Signal.DeviceRequest Request.default)
  | _ => none

/-- The signal sequence produced by one consumption of the
`listen_signals` iterator, as a function of the trace of received raw
events, each paired with the cancellation-flag value observed by
`take_while` at that event. -/
def listen_signals (trace : List (Bool × RawEvent)) : List Signal :=
  ((trace.takeWhile (fun step => step.1)).map Prod.snd).filterMap decodeSignal

/-- A raw event with member `"Changed"` and an empty body. -/
def changedEvent : RawEvent := ⟨"Changed", Except.ok []⟩

/-- A raw event with member `"DeviceRequest"` whose body carries an
`AppstreamId` field. -/
def devReqEvent : RawEvent := ⟨"DeviceRequest", Except.ok [("AppstreamId", ZValue.str "org.x")]⟩

/-- C5 fails on the code: an event with member `"Changed"` is skipped (the
decoder's catch-all arm), not decoded to `Signal::Changed`; and a
`"DeviceRequest"` event whose body carries `AppstreamId = "org.x"` yields
`Signal::DeviceRequest(Request::default())` — the request the loop decoded
from the body (whose `appstream_id` is `"org.x"`) is discarded. -/
theorem c5_decode_divergence :
    decodeSignal changedEvent = none ∧
    decodeSignal devReqEvent = some (Signal.DeviceRequest Request.default) ∧
    [("AppstreamId", ZValue.str "org.x")].foldl applyRequestField Request.default =
      ⟨"org.x", 0, "", 0, ""⟩ ∧
    Request.default ≠ (⟨"org.x", 0, "", 0, ""⟩ : Request) := by
  exact ⟨rfl, rfl, rfl, by decide⟩

theorem takeWhileP_all_true (t : List (Bool × RawEvent))
    (h : ∀ p ∈ t, p.1 = true) :
    t.takeWhile (fun step => step.1) = t := by
  induction t with
  | nil => rfl
  | cons a t ih =>
    have ha : a.1 = true := h a (List.mem_cons_self a t)
    simp only [List.takeWhile_cons, ha]
    exact congrArg (List.cons a) (ih fun p hp => h p (List.mem_cons_of_mem a hp))

theorem takeWhileP_stops (t₁ t₂ : List (Bool × RawEvent)) (e : RawEvent)
    (h : ∀ p ∈ t₁, p.1 = true) :
    (t₁ ++ (false, e) :: t₂).takeWhile (fun step => step.1) = t₁ := by
  induction t₁ with
  | nil => rfl
  | cons a t ih =>
    have ha : a.1 = true := h a (List.mem_cons_self a t)
    simp only [List.cons_append, List.takeWhile_cons, ha]
    exact congrArg (List.cons a) (ih fun p hp => h p (List.mem_cons_of_mem a hp))

/-- C6 fails on the code: the iterator is
`take_while(|_| cancellable.load(..))`, so with the flag observed `false`
("not set") the sequence ends immediately even though an event is pending,
and with the flag observed `true` the sequence continues and yields — the
claim states the opposite polarity for both. -/
theorem c6_counterexample :
    listen_signals [(false, devReqEvent)] = [] ∧
    listen_signals [(true, devReqEvent)] = [Signal.DeviceRequest Request.default] := by
  exact ⟨rfl, rfl⟩

/-- C6 (amended): the flag's polarity is inverted relative to the claim —
the sequence continues as long as the flag is observed `true` (each pull
yields the decoded signals of recognized events, in order), and once the
flag is observed `false` the sequence ends by yielding no more elements
(the suffix of the trace contributes nothing), not by raising an error. -/
theorem c6_cancellation (t t₁ t₂ : List (Bool × RawEvent)) (e : RawEvent)
    (hall : ∀ p ∈ t, p.1 = true) (h₁ : ∀ p ∈ t₁, p.1 = true) :
    listen_signals t = (t.map Prod.snd).filterMap decodeSignal ∧
    listen_signals (t₁ ++ (false, e) :: t₂) = listen_signals t₁ := by
  constructor
  · unfold listen_signals
    rw [takeWhileP_all_true t hall]
  · unfold listen_signals
    rw [takeWhileP_stops t₁ t₂ e h₁, takeWhileP_all_true t₁ h₁]

/-- Witness for C6's amended theorem at a concrete trace: one recognized
event under a `true` flag is yielded; appending events after a `false`
observation leaves the sequence unchanged. -/
theorem c6_witness :
    (listen_signals [(true, devReqEvent)] =
      ([(true, devReqEvent)].map Prod.snd).filterMap decodeSignal) ∧
    listen_signals ([(true, devReqEvent)] ++ (false, changedEvent) :: [(true, devReqEvent)]) =
      listen_signals [(true, devReqEvent)] :=
  c6_cancellation [(true, devReqEvent)] [(true, devReqEvent)] [(true, devReqEvent)]
    changedEvent
    (fun p hp => by rcases List.mem_singleton.mp hp with rfl; rfl)
    (fun p hp => by rcases List.mem_singleton.mp hp with rfl; rfl)

/-! ## Remotes: `Remote::update_metadata` and `Remote::firmware_uri`

src/remote.rs.  Panics (Rust `unwrap`/`expect`) are modelled by a dedicated
`panic` constructor of the `Outcome` type; the effects a run performs
(filesystem reads/creates, HTTP GETs, the daemon RPC) are returned as an
explicit list. -/

/-- Outcome of a Rust computation that may return a typed error or panic. -/
inductive Outcome (ε α : Type)
  | ok (a : α)
  | err (e : ε)
  | panic (msg : String)

/-- Whether an outcome is a panic. -/
def Outcome.isPanic : Outcome ε α → Bool
  | Outcome.panic _ => true
  | _ => false

/-- The type of keyring to use with a remote (src/remote.rs). -/
inductive KeyringKind
  | Unknown
  | NoKeyring
  | GPG
  | PKCS7
  | JCAT
deriving DecidableEq

/-- The kind of remote (src/remote.rs). -/
inductive RemoteKind
  | Unknown
  | Download
  | Local
  | Directory
deriving DecidableEq

/-- The `UpdateError` variants of src/remote.rs; error payloads are
abstracted to codes, paths kept as strings. -/
inductive UpdateError
  | Client (e : Nat)
  | Copy (e : IoError)
  | CreateParent (e : IoError)
  | Get (e : UreqError)
  | NoUri
  | Open (e : IoError) (path : String)
  | Read (e : IoError) (path : String)
  | Seek (e : IoError)
  | Truncate (e : IoError)
  | UserAgent (e : Nat)
deriving DecidableEq

/-- Information about an available fwupd remote (src/remote.rs);
`Box<str>` fields become `String`, `u64`/`i16` become `Nat`/`Int`. -/
structure Remote where
  agreement : Option String
  approval_required : Bool
  checksum : Option String
  enabled : Bool
  filename_cache : String
  filename_source : String
  firmware_base_uri : Option String
  keyring : KeyringKind
  kind : RemoteKind
  modification_time : Nat
  password : Option String
  priority : Int
  remote_id : String
  report_uri : Option String
  title : String
  uri : Option String
  username : Option String

/-- Splits a character list on `'/'` (the path separator); structural
helper backing the `std::path` models below. -/
def splitSlash : List Char → List (List Char)
  | [] => [[]]
  | c :: rest =>
    let r := splitSlash rest
    if c = '/' then [] :: r
    else
      match r with
      | [] => [[c]]
      | h :: t => (c :: h) :: t

/-- Models `std::path::Path::file_name` on plain string paths: the final
normal component — empty and `"."` components are not components, a final
`".."` has no file name. -/
def pathFileName (p : String) : Option String :=
  let comps := (splitSlash p.data).filter (fun c => !c.isEmpty && c != ['.'])
  match comps.getLast? with
  | some c => if c = ['.', '.'] then none else some (String.mk c)
  | none => none

/-- Models `std::path::Path::parent` on plain string paths: strip trailing
separators, then strip the final component and its separators; `none` for
the empty path, `"/"` stays the parent of its direct children, and a bare
relative component has parent `""` — matching `Path::parent`, which returns
the slice of the original string before the final component, so interior
runs such as `"//"` are preserved. -/
def pathParent (p : String) : Option String :=
  let trimmed := (p.data.reverse.dropWhile (fun c => c == '/')).reverse
  if trimmed.isEmpty then none
  else
    let pre := (trimmed.reverse.dropWhile (fun c => c != '/')).reverse
    if pre.isEmpty then some ""
    else
      let pre2 := (pre.reverse.dropWhile (fun c => c == '/')).reverse
      if pre2.isEmpty then some "/" else some (String.mk pre2)

/-- Rust `str::ends_with('/')`, on the character list of the string. -/
def endsWithSlash (p : String) : Bool :=
  p.data.getLast? == some '/'

/-- Rust `&s[..s.len() - 1]`: drop the final character. -/
def dropLastChar (p : String) : String :=
  String.mk p.data.dropLast

/-- Embeds `Remote::firmware_uri` (src/remote.rs, lines 134-169), up to the
final `uri.parse::<Url>()`: parsing an already-normalized absolute URI
string is the identity on its textual form, so the function returns the
string the source builds.  The `expect` calls become `panic` outcomes. -/
def firmware_uri (r : Remote) (url : String) : Outcome Empty String :=
  match r.firmware_base_uri with
  | some firmware_base_uri =>
    let firmware_base_uri :=
      if endsWithSlash firmware_base_uri then dropLastChar firmware_base_uri
      else firmware_base_uri
    match pathFileName url with
    | none => Outcome.panic "release URI without basename"
    | some basename => Outcome.ok (firmware_base_uri ++ "/" ++ basename)
  | none =>
    if !(url.data.contains '/') then
      match r.uri with
      | none => Outcome.panic "remote URI without URI"
      | some remote_uri =>
        match pathParent remote_uri with
        | none => Outcome.panic "metadata URI without parent"
        | some dirname =>
          let dirname := if endsWithSlash dirname then dropLastChar dirname else dirname
          Outcome.ok (dirname ++ "/" ++ url)
    else Outcome.ok url

/-- The remote of the `remote_baseuri` test (src/lib.rs, lines 752-761):
enabled download remote with a firmware base URI. -/
def download_remote : Remote :=
  ⟨none, false, none, true, "", "", some "https://my.fancy.cdn/", KeyringKind.GPG,
    RemoteKind.Download, 0, none, 0, "", none, "",
    some "https://s3.amazonaws.com/lvfsbucket/downloads/firmware.xml.gz", none⟩

/-- The remote of the `remote_nopath` test (src/lib.rs, lines 763-771):
same, but without a firmware base URI. -/
def nopath_remote : Remote :=
  ⟨none, false, none, true, "", "", none, KeyringKind.GPG,
    RemoteKind.Download, 0, none, 0, "", none, "",
    some "https://s3.amazonaws.com/lvfsbucket/downloads/firmware.xml.gz", none⟩

/-- C8: with a firmware base URI ending in `/`, the reference's path is
discarded and its basename is appended to the slash-stripped base; without
one, a bare-filename reference is joined to the directory portion of the
metadata URI. -/
theorem c8_firmware_uri_resolution :
    firmware_uri download_remote "http://bbc.co.uk/firmware.cab" =
      Outcome.ok "https://my.fancy.cdn/firmware.cab" ∧
    firmware_uri nopath_remote "firmware.cab" =
      Outcome.ok "https://s3.amazonaws.com/lvfsbucket/downloads/firmware.cab" := by
  exact ⟨rfl, rfl⟩

/-- Modelled from the spec: `cache_path` is called by
`Remote::local_cache` but is not among the provided sources (only its
callers are).  Per §4.3 of the spec it is a deterministic mapping placing
the cached artifact under a per-application cache root, keyed by
remote-id + basename; modelled as prefixing that cache root. -/
def cache_path (file : String) : String := "cache-root/" ++ file

/-- Embeds `Remote::local_cache` (src/remote.rs, lines 179-185): the cache
location of `file`, under the remote's id; the `expect` on a missing file
name becomes a `panic` outcome. -/
def local_cache (r : Remote) (file : String) : Outcome UpdateError String :=
  match pathFileName file with
  | none => Outcome.panic "remote filename cache does not have a file name"
  | some file_name => Outcome.ok (cache_path (r.remote_id ++ "/" ++ file_name))

/-- Observable effects of a metadata update run. -/
inductive Effect
  | fsRead (path : String)
  | fsCreate (path : String)
  | httpGet (uri : String)
  | rpcUpdateMetadata
deriving DecidableEq

/-- Outcomes of the I/O actions of one `Remote::fetch` call, in program
order: opening the destination file, the GET call, the copy, the rewind. -/
structure FetchSpec where
  openErr : Option IoError
  getResp : Except UreqError Unit
  copyErr : Option IoError
  seekErr : Option IoError

/-- Embeds `Remote::fetch` (src/remote.rs, lines 224-247): remove any stale
destination file, open the destination (create + read + write), issue the
GET, stream the body to disk, rewind.  Returns the typed error of the first
failing step, and the effect list of the actions that ran. -/
def Remote_fetch (spec : FetchSpec) (uri : String) (file : String) :
    Except UpdateError Unit × List Effect :=
  match spec.openErr with
  | some e => (Except.error (UpdateError.Open e file), [Effect.fsCreate file])
  | none =>
    match spec.getResp with
    | Except.error e =>
      (Except.error (UpdateError.Get e), [Effect.fsCreate file, Effect.httpGet uri])
    | Except.ok _ =>
      match spec.copyErr with
      | some e =>
        (Except.error (UpdateError.Copy e), [Effect.fsCreate file, Effect.httpGet uri])
      | none =>
        match spec.seekErr with
        | some e =>
          (Except.error (UpdateError.Seek e), [Effect.fsCreate file, Effect.httpGet uri])
        | none => (Except.ok (), [Effect.fsCreate file, Effect.httpGet uri])

/-- Outcomes of the I/O actions of one `Remote::update_metadata` run. -/
structure MetaEnv where
  /-- The abstract hash of a byte stream. -/
  digest : Algorithm → List Nat → String
  /-- Whether the cached metadata file exists (`local_cache.exists()`). -/
  cacheExists : Bool
  /-- Outcome of opening and hashing the cached metadata file: its content,
  or the I/O error raised while opening or reading it. -/
  openRead : Except IoError (List Nat)
  /-- Outcomes for the metadata-file fetch. -/
  fetchMain : FetchSpec
  /-- Outcomes for the signature-file fetch. -/
  fetchSig : FetchSpec
  /-- Outcome of the daemon's `UpdateMetadata` RPC. -/
  rpcResult : Except Nat Unit

/-- Embeds `Remote::update_file` (src/remote.rs, lines 188-207).  The
stored checksum is unwrapped *before* the `is_some()` check, so a missing
checksum panics.  As in the source, only `checksum_matched.is_ok()` is
consulted: when the cached file exists and opening and hashing it succeed,
`Ok(None)` is returned no matter whether the digest matched. -/
def update_file (r : Remote) (env : MetaEnv) (uri : String) :
    Outcome UpdateError (Option Unit) × List Effect :=
  match local_cache r r.filename_cache with
  | Outcome.panic m => (Outcome.panic m, [])
  | Outcome.err e => (Outcome.err e, [])
  | Outcome.ok lc =>
    match r.checksum with
    | none => (Outcome.panic "called Option::unwrap() on a None value", [])
    | some checksum =>
      if env.cacheExists && (some checksum).isSome then
        let checksum_matched : Except IoError Bool :=
          match env.openRead with
          | Except.error e => Except.error e
          | Except.ok content =>
            validate_checksum env.digest none content checksum (checksum_guess_kind checksum)
        if !(isErrE checksum_matched) then (Outcome.ok none, [Effect.fsRead lc])
        else
          let (res, eff) := Remote_fetch env.fetchMain uri lc
          (match res with
            | Except.error e => Outcome.err e
            | Except.ok _ => Outcome.ok (some ()),
            Effect.fsRead lc :: eff)
      else
        let (res, eff) := Remote_fetch env.fetchMain uri lc
        (match res with
          | Except.error e => Outcome.err e
          | Except.ok _ => Outcome.ok (some ()),
          eff)

/-- The signature-file extension selected by the remote's keyring kind
(src/remote.rs, lines 211-215). -/
def signature_extension (k : KeyringKind) : String :=
  match k with
  | KeyringKind.JCAT => ".jcat"
  | KeyringKind.PKCS7 => ".p7b"
  | _ => ".asc"

/-- Embeds `Remote::update_signature` (src/remote.rs, lines 210-221):
always fetches `uri ++ extension` to the signature cache location. -/
def update_signature (r : Remote) (env : MetaEnv) (uri : String) :
    Outcome UpdateError Unit × List Effect :=
  let extension := signature_extension r.keyring
  match local_cache r (r.filename_cache ++ extension) with
  | Outcome.panic m => (Outcome.panic m, [])
  | Outcome.err e => (Outcome.err e, [])
  | Outcome.ok cache =>
    let (res, eff) := Remote_fetch env.fetchSig (uri ++ extension) cache
    (match res with
      | Except.error e => Outcome.err e
      | Except.ok _ => Outcome.ok (), eff)

/-- Embeds `Remote::update_metadata` (src/remote.rs, lines 119-132): a
disabled remote returns `Ok` at once; a remote without a URI returns `Ok`;
otherwise fetch the metadata file — and when a (re-)download happened,
fetch the signature and hand both to the daemon's `UpdateMetadata` RPC. -/
def update_metadata (r : Remote) (env : MetaEnv) :
    Outcome UpdateError Unit × List Effect :=
  if !r.enabled then (Outcome.ok (), [])
  else
    match r.uri with
    | none => (Outcome.ok (), [])
    | some uri =>
      match update_file r env uri with
      | (Outcome.panic m, eff) => (Outcome.panic m, eff)
      | (Outcome.err e, eff) => (Outcome.err e, eff)
      | (Outcome.ok none, eff) => (Outcome.ok (), eff)
      | (Outcome.ok (some _), eff) =>
        match update_signature r env uri with
        | (Outcome.panic m, eff2) => (Outcome.panic m, eff ++ eff2)
        | (Outcome.err e, eff2) => (Outcome.err e, eff ++ eff2)
        | (Outcome.ok _, eff2) =>
          match env.rpcResult with
          | Except.error e =>
            (Outcome.err (UpdateError.Client e), eff ++ eff2 ++ [Effect.rpcUpdateMetadata])
          | Except.ok _ => (Outcome.ok (), eff ++ eff2 ++ [Effect.rpcUpdateMetadata])

/-- A fetch whose every I/O action succeeds. -/
def trivialFetchSpec : FetchSpec := ⟨none, Except.ok (), none, none⟩

/-- A metadata-update environment where every I/O action succeeds, the
cached metadata file exists with content `[1]`, and every digest is the
string `"d"`. -/
def simpleMetaEnv : MetaEnv :=
  ⟨fun _ _ => "d", true, Except.ok [1], trivialFetchSpec, trivialFetchSpec, Except.ok ()⟩

/-- A disabled download remote. -/
def disabled_remote : Remote :=
  ⟨none, false, none, false, "metadata.xml.gz", "", none, KeyringKind.GPG,
    RemoteKind.Download, 0, none, 0, "lvfs", none, "",
    some "https://example.com/metadata.xml.gz", none⟩

/-- An enabled download remote with a URI but no stored checksum. -/
def nochecksum_remote : Remote :=
  ⟨none, false, none, true, "metadata.xml.gz", "", none, KeyringKind.GPG,
    RemoteKind.Download, 0, none, 0, "lvfs", none, "",
    some "https://example.com/metadata.xml.gz", none⟩

/-- An enabled download remote with a URI and a stored checksum. -/
def checksummed_remote : Remote :=
  ⟨none, false, some sha512Checksum, true, "metadata.xml.gz", "", none, KeyringKind.GPG,
    RemoteKind.Download, 0, none, 0, "lvfs", none, "",
    some "https://example.com/metadata.xml.gz", none⟩

/-- C7: a disabled remote short-circuits `update_metadata` — the result is
`Ok` and no effect at all is performed: no HTTP fetch, no cache file read
or write, no RPC call. -/
theorem c7_disabled_remote_no_effects (r : Remote) (env : MetaEnv)
    (h : r.enabled = false) :
    update_metadata r env = (Outcome.ok (), []) := by
  unfold update_metadata
  rw [h]
  rfl

/-- Witness for C7 at a concrete disabled remote and environment. -/
theorem c7_witness :
    update_metadata disabled_remote simpleMetaEnv = (Outcome.ok (), []) :=
  c7_disabled_remote_no_effects disabled_remote simpleMetaEnv rfl

/-- C9: an enabled remote with a URI but no stored checksum makes
`update_metadata` panic — `update_file` unwraps `self.checksum` before the
`is_some()` check — rather than return a typed error. -/
theorem c9_missing_checksum_panics (r : Remote) (env : MetaEnv) (u : String)
    (he : r.enabled = true) (hu : r.uri = some u) (hc : r.checksum = none) :
    (update_metadata r env).1.isPanic = true := by
  unfold update_metadata
  rw [he, hu]
  simp only [Bool.not_true, Bool.false_eq_true, if_false]
  unfold update_file local_cache
  cases hfn : pathFileName r.filename_cache with
  | none => rfl
  | some fn =>
    rw [hc]
    rfl

/-- Witness for C9 at a concrete enabled, checksum-less remote. -/
theorem c9_witness :
    (update_metadata nochecksum_remote simpleMetaEnv).1.isPanic = true :=
  c9_missing_checksum_panics nochecksum_remote simpleMetaEnv
    "https://example.com/metadata.xml.gz" rfl rfl rfl

theorem update_file_effects_mono (r : Remote) (env : MetaEnv) (u : String)
    (he : r.enabled = true) (hu : r.uri = some u) :
    ∀ x ∈ (update_file r env u).2, x ∈ (update_metadata r env).2 := by
  intro x hx
  unfold update_metadata
  rw [he, hu]
  simp only [Bool.not_true, Bool.false_eq_true, if_false]
  rcases hup : update_file r env u with ⟨res, eff⟩
  rw [hup] at hx
  rcases res with a | e | m
  · rcases a with _ | _
    · exact hx
    · rcases hsig : update_signature r env u with ⟨res2, eff2⟩
      rcases res2 with _ | e2 | m2
      · rcases hrpc : env.rpcResult with e3 | _
        · simp only [hrpc]
          exact List.mem_append_left _ (List.mem_append_left _ hx)
        · simp only [hrpc]
          exact List.mem_append_left _ (List.mem_append_left _ hx)
      · exact List.mem_append_left _ hx
      · exact List.mem_append_left _ hx
  · exact hx
  · exact hx

theorem httpGet_mem_Remote_fetch (spec : FetchSpec) (u f : String)
    (h : spec.openErr = none) :
    Effect.httpGet u ∈ (Remote_fetch spec u f).2 := by
  unfold Remote_fetch
  rw [h]
  rcases spec.getResp with e | _
  · simp
  · rcases spec.copyErr with _ | e
    · rcases spec.seekErr with _ | e
      · simp
      · simp
    · simp

/-- C10: for an enabled remote with a URI and a stored checksum, when the
cached metadata file exists and opening and hashing it succeed,
`update_metadata` returns `Ok` having only read the cache file — no HTTP
GET and no `UpdateMetadata` RPC — with no condition whatsoever on whether
the file's digest equals the stored checksum (the digest function is
universally quantified); and when opening or reading the cached file fails
with an I/O error, the metadata is re-fetched (an HTTP GET of the remote's
URI occurs, provided the destination file can be opened). -/
theorem c10_cached_metadata_trusted_without_validation (r : Remote) (env : MetaEnv)
    (u c fn : String)
    (he : r.enabled = true) (hu : r.uri = some u) (hc : r.checksum = some c)
    (hfn : pathFileName r.filename_cache = some fn)
    (hex : env.cacheExists = true) :
    (∀ content, env.openRead = Except.ok content →
      update_metadata r env =
        (Outcome.ok (), [Effect.fsRead (cache_path (r.remote_id ++ "/" ++ fn))])) ∧
    (∀ e, env.openRead = Except.error e → env.fetchMain.openErr = none →
      Effect.httpGet u ∈ (update_metadata r env).2) := by
  constructor
  · intro content hread
    unfold update_metadata
    rw [he, hu]
    simp only [Bool.not_true, Bool.false_eq_true, if_false]
    unfold update_file local_cache
    rw [hfn, hc, hex, hread]
    rfl
  · intro e hread hopen
    have hfile : (update_file r env u).2 =
        Effect.fsRead (cache_path (r.remote_id ++ "/" ++ fn)) ::
          (Remote_fetch env.fetchMain u
            (cache_path (r.remote_id ++ "/" ++ fn))).2 := by
      unfold update_file local_cache
      rw [hfn, hc, hex, hread]
      rfl
    apply update_file_effects_mono r env u he hu
    rw [hfile]
    exact List.mem_cons_of_mem _
      (httpGet_mem_Remote_fetch env.fetchMain u _ hopen)

set_option maxRecDepth 4000 in
/-- Witness for C10 at a concrete remote and environment: the cached
metadata hashes to `"d"`, which differs from the stored checksum, yet the
run succeeds with a single cache-file read. -/
theorem c10_witness :
    update_metadata checksummed_remote simpleMetaEnv =
      (Outcome.ok (), [Effect.fsRead (cache_path ("lvfs" ++ "/" ++ "metadata.xml.gz"))]) ∧
    simpleMetaEnv.digest (checksum_guess_kind sha512Checksum) [1] ≠ sha512Checksum :=
  ⟨(c10_cached_metadata_trusted_without_validation checksummed_remote simpleMetaEnv
      "https://example.com/metadata.xml.gz" sha512Checksum "metadata.xml.gz"
      rfl rfl rfl rfl rfl).1 [1] rfl,
    by decide⟩

end Fwupd
